import Mathlib

/-
  Shallow embedding of the rina Discord music bot (src/main.rs, src/playlist.rs).

  The bot glues the serenity chat gateway to the songbird voice engine.  We
  model the per-guild voice call that songbird owns as an explicit `CallState`
  (current channel, self-mute flag, track queue); `Option CallState` is the
  guild's session slot in songbird's registry (`manager.get`).  Each command
  handler of main.rs becomes a pure function from the message author's voice
  channel and the session slot to a `HandlerOut`: the session slot after the
  handler, the chat replies it sent (`check_msg(send_message ...)`), and the
  voice-library calls it issued.  Fallible library calls (join, remove, mute,
  queue skip, metadata fetch) take a Boolean or `Except` oracle standing for
  the third-party call's outcome, since those calls are external to this
  repository.  Library semantics used: songbird's track queue plays its front
  element and enqueues at the back; `Vec::pop` removes the last element;
  `Vec::drain(0..k)` panics when `k` exceeds the length; `usize` subtraction
  panics on underflow.  Panicking computations return `none`.
-/

namespace Rina

/-- A queued track; the only per-track datum main.rs stores is the title
    (in the `TrackTitleKey` typemap slot). -/
structure Track where
  title : String
deriving Repr, DecidableEq

/-- The per-guild songbird call state the handlers observe and mutate:
    `current_channel()`, `is_mute()`, and the track queue. -/
structure CallState where
  channel : Option Nat
  selfMute : Bool
  selfDeaf : Bool
  queue : List Track
deriving Repr, DecidableEq

/-- Whether a reply embed was built with `EmbedBuilder::error()` (red) or
    `EmbedBuilder::new()` (normal). -/
inductive ReplyKind
  | normal
  | error
deriving Repr, DecidableEq

/-- One chat message sent by a handler via `check_msg(send_message ...)`. -/
structure Reply where
  kind : ReplyKind
  title : String
  description : String
deriving Repr, DecidableEq

/-- A call issued to the voice library (songbird) by a handler. -/
inductive VoiceCall
  | joinCh (ch : Nat)
  | remove
  | muteCall (b : Bool)
  | deafenCall (b : Bool)
  | enqueue (t : Track)
  | queueSkip
  | queueStop
deriving Repr, DecidableEq

/-- Result of running one command handler: the guild's session slot
    afterwards, the replies sent, and the voice-library calls issued. -/
structure HandlerOut where
  session : Option CallState
  replies : List Reply
  calls : List VoiceCall
deriving Repr, DecidableEq

/-- An error embed reply (`EmbedBuilder::error()`). -/
def errReply (t d : String) : Reply :=
  ⟨ReplyKind.error, t, d⟩

/-- A normal embed reply (`EmbedBuilder::new()`). -/
def okReply (t d : String) : Reply :=
  ⟨ReplyKind.normal, t, d⟩

/-- The `join` handler (main.rs lines 122-187).  `author` is the message
    author's voice channel; `joinOk` is the outcome of `manager.join`;
    `deafenOk` the outcome of `voice.deafen(true)` (a failure is only
    logged). -/
def join (author : Option Nat) (sess : Option CallState) (joinOk deafenOk : Bool) :
    HandlerOut :=
  match author with
  | none => ⟨sess, [errReply "!join" "User not in a voice channel"], []⟩
  | some connectTo =>
    if sess.isSome then
      ⟨sess, [errReply "!join" "I\x27m already in another voice channel"], []⟩
    else if joinOk then
      ⟨some ⟨some connectTo, false, deafenOk, []⟩,
        [okReply "!join" ("Joined " ++ toString connectTo)],
        [VoiceCall.joinCh connectTo, VoiceCall.deafenCall true]⟩
    else
      ⟨sess,
        [errReply "!join" ("Could not join the voice channel " ++ toString connectTo)],
        [VoiceCall.joinCh connectTo]⟩

/-- The `leave` handler (main.rs lines 189-254).  `removeOk` is the outcome
    of `manager.remove`.  Returns `none` for the panic of the final
    `.expect("Expected author channel id to be defined")`, reachable only
    when both the author channel and `current_channel()` are `None`. -/
def leave (author : Option Nat) (sess : Option CallState) (removeOk : Bool) :
    Option HandlerOut :=
  match sess with
  | none => some ⟨none, [errReply "!leave" "User not in a voice channel"], []⟩
  | some voice =>
    if author ≠ voice.channel then
      some ⟨some voice, [errReply "!leave" "User not in the same voice channel"], []⟩
    else if removeOk then
      match author with
      | some a =>
        some ⟨none, [okReply "!leave" ("Left voice channel " ++ toString a)],
          [VoiceCall.remove]⟩
      | none => none
    else
      some ⟨some voice, [errReply "!leave" "Failed leaving voice channel"],
        [VoiceCall.remove]⟩

/-- The `mute` handler (main.rs lines 256-319).  `muteOk` is the outcome of
    `voice.mute(true)`; the call is only issued when the bot is not already
    muted. -/
def mute (author : Option Nat) (sess : Option CallState) (muteOk : Bool) :
    HandlerOut :=
  match sess with
  | none => ⟨none, [errReply "!mute" "User not in a voice channel"], []⟩
  | some voice =>
    if author ≠ voice.channel then
      ⟨some voice, [errReply "!mute" "User not in the same voice channel"], []⟩
    else if voice.selfMute then
      ⟨some voice, [okReply "!mute" "I\x27m already muted. Use `!unmute` to unmute me"], []⟩
    else if muteOk then
      ⟨some { voice with selfMute := true },
        [okReply "!mute" "I\x27m now muted. Use `!unmute` to unmute me"],
        [VoiceCall.muteCall true]⟩
    else
      ⟨some voice, [errReply "!mute" "Could not mute myself"],
        [VoiceCall.muteCall true]⟩

/-- The `unmute` handler (main.rs lines 634-692).  `voice.mute(false)` is
    issued unconditionally once validation passes. -/
def unmute (author : Option Nat) (sess : Option CallState) (muteOk : Bool) :
    HandlerOut :=
  match sess with
  | none => ⟨none, [errReply "!unmute" "User not in a voice channel"], []⟩
  | some voice =>
    if author ≠ voice.channel then
      ⟨some voice, [errReply "!unmute" "User not in the same voice channel"], []⟩
    else if muteOk then
      ⟨some { voice with selfMute := false },
        [okReply "!unmute" "I\x27m now unmuted. Use `!mute` to mute me"],
        [VoiceCall.muteCall false]⟩
    else
      ⟨some voice, [errReply "!unmute" "Could not unmute myself"],
        [VoiceCall.muteCall false]⟩

/-- The `stop` handler (main.rs lines 589-632).  `queue().stop()` clears the
    queue and stops playback; the success path sends no message. -/
def stop (author : Option Nat) (sess : Option CallState) : HandlerOut :=
  match sess with
  | none => ⟨none, [errReply "!stop" "User not in a voice channel"], []⟩
  | some voice =>
    if author ≠ voice.channel then
      ⟨some voice, [errReply "!stop" "User not in the same voice channel"], []⟩
    else
      ⟨some { voice with queue := [] }, [], [VoiceCall.queueStop]⟩

/-- The `now` handler (main.rs lines 773-834).  `queue().current()` is the
    front of the queue. -/
def now (author : Option Nat) (sess : Option CallState) : HandlerOut :=
  match sess with
  | none => ⟨none, [errReply "!now" "User not in a voice channel"], []⟩
  | some voice =>
    if author ≠ voice.channel then
      ⟨some voice, [errReply "!now" "User not in the same voice channel"], []⟩
    else
      match voice.queue.head? with
      | none => ⟨some voice, [okReply "!now" "Not currently playing a track"], []⟩
      | some track =>
        ⟨some voice, [okReply "!now" ("Now playing " ++ track.title)], []⟩

/-- Numbered track listing, `{idx}. {title}\n` for each track, indices from
    0, as built by the loops in `skip` and `queue` (main.rs 572-576, 756-760). -/
def trackLines (ts : List Track) : String :=
  String.join (ts.enum.map fun p => toString p.1 ++ ". " ++ p.2.title ++ "\n")

/-- The listing bound of the `queue` handler: `tracks.iter().take(len)` with
    `let len = tracks.len().max(50)` (main.rs 749, 756). -/
def queueListed (rest : List Track) : List Track :=
  rest.take (rest.length.max 50)

/-- The description string the `queue` handler builds (main.rs 750-760):
    now-playing title, then the count of the snapshot after the `pop`, then
    the numbered listing. -/
def queueDescription (currentTitle : String) (rest : List Track) : String :=
  "Now playing: **" ++ currentTitle ++ "**\n\nTotal tracks in queue: **"
    ++ toString rest.length ++ "**\n\n" ++ trackLines (queueListed rest)

/-- The `queue` handler (main.rs lines 694-771).  `current_queue()` snapshots
    the queue (front = currently playing); `tracks.pop()` is `Vec::pop`,
    which removes the LAST element of the snapshot. -/
def queueCmd (author : Option Nat) (sess : Option CallState) : HandlerOut :=
  match sess with
  | none => ⟨none, [errReply "!queue" "User not in a voice channel"], []⟩
  | some voice =>
    if author ≠ voice.channel then
      ⟨some voice, [errReply "!queue" "User not in the same voice channel"], []⟩
    else
      match voice.queue.getLast? with
      | none => ⟨some voice, [okReply "!queue" "Queue is curently empty"], []⟩
      | some last =>
        ⟨some voice,
          [okReply "!queue" (queueDescription last.title voice.queue.dropLast)], []⟩

/-- One metadata record of playlist.rs: a stream url plus a title. -/
structure Metadata where
  url : String
  title : String
deriving Repr, DecidableEq

/-- `str::starts_with` over the character lists of the strings. -/
def listStartsWith : List Char → List Char → Bool
  | [], _ => true
  | _ :: _, [] => false
  | p :: ps, c :: cs => p == c && listStartsWith ps cs

/-- `str::contains` of a pattern over the character list of a string. -/
def containsSeq (pat : List Char) : List Char → Bool
  | [] => listStartsWith pat []
  | c :: cs => listStartsWith pat (c :: cs) || containsSeq pat cs

/-- The playlist-URL test of the `play` handler (main.rs line 394):
    `music.starts_with("http") && music.contains("&list=")`. -/
def isPlaylistUrl (music : String) : Bool :=
  listStartsWith "http".toList music.toList
    && containsSeq "&list=".toList music.toList

/-- Result of the `play` handler: `ok` when the handler returned `Ok(())`,
    `propagated` when the `?` on `src.aux_metadata().await` returned the
    error to the framework.  Either way `out` carries the session slot,
    replies and calls up to that point. -/
inductive PlayResult
  | ok (out : HandlerOut)
  | propagated (out : HandlerOut)
deriving Repr, DecidableEq

/-- The `HandlerOut` carried by either constructor of `PlayResult`. -/
def PlayResult.out : PlayResult → HandlerOut
  | .ok o => o
  | .propagated o => o

/-- The `play` handler (main.rs lines 321-451).  `music` is
    `args.single::<String>()`; `joinOk` the outcome of `manager.join` when no
    session exists; `playlistQuery` the outcome of `playlist::query`;
    `auxMetadata` the outcome of `src.aux_metadata()` (its payload the
    optional title).  Tracks enqueue at the back of the songbird queue. -/
def play (author : Option Nat) (sess : Option CallState) (joinOk : Bool)
    (music : Option String) (playlistQuery : Except String (List Metadata))
    (auxMetadata : Except String (Option String)) : PlayResult :=
  match author with
  | none => .ok ⟨sess, [errReply "!play" "User not in a voice channel"], []⟩
  | some connectTo =>
    match music with
    | none => .ok ⟨sess, [errReply "!play" "Missing music or URL argument"], []⟩
    | some m =>
      let joined : Option (CallState × List VoiceCall) :=
        match sess with
        | some voice => some (voice, [])
        | none =>
          if joinOk then
            some (⟨some connectTo, false, false, []⟩, [VoiceCall.joinCh connectTo])
          else none
      match joined with
      | none =>
        .ok ⟨sess,
          [errReply "!play" ("Could not join voice channel " ++ toString connectTo)],
          [VoiceCall.joinCh connectTo]⟩
      | some (voice, calls0) =>
        if some connectTo ≠ voice.channel then
          .ok ⟨some voice, [errReply "!play" "User not in the same voice channel"],
            calls0⟩
        else if isPlaylistUrl m then
          match playlistQuery with
          | .error _ =>
            .ok ⟨some voice, [errReply "!play" "Could not load track from playlist"],
              calls0⟩
          | .ok ms =>
            let tracks := ms.map fun md => Track.mk md.title
            .ok ⟨some { voice with queue := voice.queue ++ tracks },
              [okReply "!play" (toString ms.length ++ " tracks added to the queue")],
              calls0 ++ tracks.map VoiceCall.enqueue⟩
        else
          match auxMetadata with
          | .error _ => .propagated ⟨some voice, [], calls0⟩
          | .ok title =>
            let t := Track.mk (title.getD "Unknown")
            .ok ⟨some { voice with queue := voice.queue ++ [t] }, [],
              calls0 ++ [VoiceCall.enqueue t]⟩

/-- Rust's `str::parse::<usize>()` on the digit strings the claims concern:
    a non-empty all-digit string yields its decimal value, anything else
    yields `Err` (the optional leading `+` sign and the `usize` overflow
    error are outside the inputs considered here). -/
def parseUsize (s : String) : Option Nat :=
  match s.toList with
  | [] => none
  | cs =>
    if cs.all Char.isDigit then
      some (cs.foldl (fun n c => n * 10 + (c.toNat - 48)) 0)
    else none

/-- Panic-checked `usize` subtraction (debug overflow check on `amount - 1`,
    main.rs 565): `none` models the underflow panic. -/
def usizeSub (a b : Nat) : Option Nat :=
  if b ≤ a then some (a - b) else none

/-- `Vec::drain(0..k)`: removes and returns the first `k` elements, leaving
    the rest; panics (`none`) when `k` exceeds the length (main.rs 568-570). -/
def vecDrain (q : List Track) (k : Nat) : Option (List Track × List Track) :=
  if k ≤ q.length then some (q.take k, q.drop k) else none

/-- The `skip` handler (main.rs lines 453-587).  `arg` is the optional first
    argument (`args.single::<String>().unwrap_or_else(|_| "1")`), parsed with
    `parse::<usize>()` (modelled by `parseUsize`); `skipOk` is the outcome
    of `queue().skip()`, which removes the front (current) track.  `none`
    models a panic of the batch-removal computation: the `usize` underflow of
    `amount - 1` or an out-of-range `drain`. -/
def skip (author : Option Nat) (sess : Option CallState) (skipOk : Bool)
    (arg : Option String) : Option HandlerOut :=
  match sess with
  | none => some ⟨none, [errReply "!skip" "User not in a voice channel"], []⟩
  | some voice =>
    if author ≠ voice.channel then
      some ⟨some voice, [errReply "!skip" "User not in the same voice channel"], []⟩
    else if voice.queue.isEmpty then
      some ⟨some voice, [errReply "!skip" "Queue is already empty. No tracks to skip"], []⟩
    else
      match parseUsize (arg.getD "1") with
      | none =>
        some ⟨some voice,
          [errReply "!skip" "Amount of tracks to skip must be a positive integer"], []⟩
      | some amount =>
        if amount > 20 then
          some ⟨some voice,
            [errReply "!skip" "Cannot skip more than 20 tracks at once"], []⟩
        else
          let currentTitle := voice.queue.head?.map Track.title
          if !skipOk then
            some ⟨some voice, [errReply "!skip" "Could not skip current track"],
              [VoiceCall.queueSkip]⟩
          else
            let remaining := voice.queue.drop 1
            if amount == 1 then
              let d :=
                match currentTitle with
                | some t => "Current track " ++ t ++ " skipped"
                | none => "Current track skipped"
              some ⟨some { voice with queue := remaining }, [okReply "!skip" d],
                [VoiceCall.queueSkip]⟩
            else
              match usizeSub amount 1 with
              | none => none
              | some k =>
                match vecDrain remaining k with
                | none => none
                | some (skipped, rest) =>
                  some ⟨some { voice with queue := rest },
                    [okReply "!skip" ("Skipped following tracks:\n" ++ trackLines skipped)],
                    [VoiceCall.queueSkip]⟩

/-- Channel kinds relevant to `voice_state_update`. -/
inductive ChannelKind
  | voice
  | text
deriving Repr, DecidableEq

/-- A guild channel as seen by `voice_state_update`: its kind and the number
    of members currently connected (the cache after the update). -/
structure GuildChannel where
  kind : ChannelKind
  members : Nat
deriving Repr, DecidableEq

/-- The `voice_state_update` event handler (main.rs lines 47-86).  `oldCh`
    and `newCh` are the channel ids of the old and new voice states;
    `guildKnown` whether `new.guild_id` is set; `channelsOk` / `membersOk`
    the outcomes of the channel and member cache fetches; `removeOk` the
    outcome of `manager.remove`; `sess` the guild's session slot.  Returns
    the session slot afterwards.  Note: the handler looks up the channel the
    USER left and never compares it against the bot's own channel. -/
def voiceStateUpdate (oldCh newCh : Option Nat) (guildKnown channelsOk : Bool)
    (channels : List (Nat × GuildChannel)) (membersOk removeOk : Bool)
    (sess : Option CallState) : Option CallState :=
  match oldCh, newCh with
  | some channelId, none =>
    if !guildKnown then sess
    else if !channelsOk then sess
    else
      match channels.lookup channelId with
      | none => sess
      | some ch =>
        if ch.kind ≠ ChannelKind.voice then sess
        else if !membersOk then sess
        else if ch.members > 1 then sess
        else if removeOk then none
        else sess
  | _, _ => sess

/-- The command set registered with the framework (main.rs line 90:
    `#[commands(help, join, leave, mute, play, skip, stop, unmute, queue, now)]`). -/
def commandNames : List String :=
  ["help", "join", "leave", "mute", "play", "skip", "stop", "unmute", "queue", "now"]

/-- Modelled from the serenity StandardFramework dispatch that main.rs
    configures (line 105, `Configuration::new().prefix("!")`): a message is
    dispatched to the command whose name is the first word after the `!`
    marker, when that name is registered. -/
def route (content : String) : Option String :=
  match content.toList with
  | [] => none
  | c :: rest =>
    if c = '!' then
      let name := String.mk (rest.takeWhile fun ch => ch ≠ ' ')
      if commandNames.contains name then some name else none
    else none

namespace Playlist

/-- The fixed yt-dlp argument list of playlist.rs lines 8-14. -/
def ytDlpArgs (url : String) : List String :=
  ["-j", url, "-f", "ba[abr>0][vcodec=none]/best", "--flat-playlist"]

/-- One line of the subprocess stdout as `BufRead::lines` yields it: a
    decoded UTF-8 string, or the `Err` a non-UTF-8 line produces. -/
inductive StdoutLine
  | valid (s : String)
  | invalidUtf8
deriving Repr, DecidableEq

/-- `lines().map_while(|line| line.ok())` (playlist.rs 23-24): the decoded
    lines up to, and not including, the first invalid-UTF-8 line; everything
    from that line on is dropped. -/
def linesOk : List StdoutLine → List String
  | [] => []
  | StdoutLine.valid s :: rest => s :: linesOk rest
  | StdoutLine.invalidUtf8 :: _ => []

/-- `map(serde_json::from_str).collect::<Result<Vec<Metadata>, _>>()`
    (playlist.rs 25-26): first parse failure aborts with `Err`, otherwise
    one record per line in order.  `parse` stands for serde_json
    deserialization into `Metadata`. -/
def collectMetadata (parse : String → Option Metadata) :
    List String → Except String (List Metadata)
  | [] => .ok []
  | s :: rest =>
    match parse s with
    | none => .error "json parse error"
    | some md =>
      match collectMetadata parse rest with
      | .error e => .error e
      | .ok ms => .ok (md :: ms)

/-- `playlist::query` (playlist.rs lines 7-29): run yt-dlp, fail on a
    non-success exit status, otherwise parse each decoded stdout line. -/
def query (statusSuccess : Bool) (stdout : List StdoutLine)
    (parse : String → Option Metadata) : Except String (List Metadata) :=
  if !statusSuccess then .error "Failed querying playlist"
  else collectMetadata parse (linesOk stdout)

end Playlist

/-- A sample stand-in for serde_json deserialization into `Metadata`, for
    concrete evaluations: it accepts exactly the line "good". -/
def parseSample : String → Option Metadata :=
  fun s => if s = "good" then some (Metadata.mk "u" "t") else none

end Rina

namespace Rina

/-- Claim C2: the claim says a voice-state update in which a user leaves a
    voice channel the bot does not occupy never destroys the guild's session.
    The code violates it: the bot occupies channel 1 (3 members), a user
    leaves channel 2 (now 0 members), and `voice_state_update` still calls
    `manager.remove`, destroying the session — the handler never compares the
    emptied channel against the bot's own channel. -/
theorem claim_C2_bug :
    voiceStateUpdate (some 2) none true true
      [(1, GuildChannel.mk ChannelKind.voice 3), (2, GuildChannel.mk ChannelKind.voice 0)]
      true true (some (CallState.mk (some 1) false false [])) = none := by
  rfl

/-- Claim C4 counterexample: the claim says every handler whose validation
    passes sends a reply for each outcome of its library call.  `stop` with a
    valid session and a matching author channel performs `queue().stop()` and
    sends no message at all. -/
theorem claim_C4_counterexample :
    stop (some 1) (some (CallState.mk (some 1) false false [Track.mk "t"]))
      = ⟨some (CallState.mk (some 1) false false []), [], [VoiceCall.queueStop]⟩ := by
  rfl

/-- Claim C5 counterexample: the claim says the router dispatches `!head`;
    no `head` command is registered (main.rs line 90), so `!head` is not
    dispatched. -/
theorem claim_C5_counterexample :
    route "!head" = none := by
  decide

/-- Claim C8 counterexample: the claim says the batch-removal computation is
    safe for every parsed `n ≤ 20` on a non-empty queue.  `!skip 0` parses as
    `n = 0 ≤ 20`, passes every guard, and the `amount - 1` expression
    underflows `usize` (modelled as the `none` panic). -/
theorem claim_C8_counterexample :
    skip (some 1) (some (CallState.mk (some 1) false false [Track.mk "a"])) true
      (some "0") = none := by
  decide

/-- Claim C7 counterexample: the claim says `playlist::query` returns `Err`
    whenever any stdout line fails to parse, and otherwise one entry per
    stdout line.  With two stdout lines, the first invalid UTF-8 (which can
    never parse as a metadata object) and the second a parseable record, the
    code returns `Ok []`: `map_while(|line| line.ok())` silently drops the
    invalid line and everything after it. -/
theorem claim_C7_counterexample :
    Playlist.query true
        [Playlist.StdoutLine.invalidUtf8, Playlist.StdoutLine.valid "good"]
        parseSample = Except.ok []
    ∧ parseSample "good" = some (Metadata.mk "u" "t")
    ∧ [Playlist.StdoutLine.invalidUtf8, Playlist.StdoutLine.valid "good"].length = 2 := by
  refine ⟨rfl, rfl, rfl⟩

/-- Claim C9: with a non-empty queue and a validated caller, the `queue`
    handler reports as now-playing the LAST element of the queue snapshot
    (`Vec::pop`, the most recently enqueued track), reports the total count
    as the snapshot length minus one, and its `take (len.max 50)` bound never
    truncates the listing. -/
theorem claim_C9 (a : Nat) (v : CallState) (hv : v.channel = some a)
    (hq : v.queue ≠ []) :
    queueCmd (some a) (some v)
      = ⟨some v,
          [okReply "!queue" (queueDescription (v.queue.getLast hq).title v.queue.dropLast)],
          []⟩
    ∧ v.queue.dropLast.length = v.queue.length - 1
    ∧ queueListed v.queue.dropLast = v.queue.dropLast := by
  refine ⟨?_, List.length_dropLast _, ?_⟩
  · simp [queueCmd, hv, List.getLast?_eq_getLast _ hq]
  · exact List.take_of_length_le (Nat.le_max_left _ _)

/-- Claim C9 witness: the theorem applied to a concrete two-track queue. -/
theorem claim_C9_witness :
    (CallState.mk (some 1) false false [Track.mk "x", Track.mk "y"]).channel = some 1
    ∧ (CallState.mk (some 1) false false [Track.mk "x", Track.mk "y"]).queue ≠ []
    ∧ queueCmd (some 1) (some (CallState.mk (some 1) false false [Track.mk "x", Track.mk "y"]))
        = ⟨some (CallState.mk (some 1) false false [Track.mk "x", Track.mk "y"]),
            [okReply "!queue" (queueDescription "y" [Track.mk "x"])], []⟩ :=
  ⟨rfl, by decide, (claim_C9 1 _ rfl (by decide)).1⟩

/-- Claim C10: once validation passes, `mute` short-circuits when the bot is
    already muted — no library mute call, an already-muted reply, state
    unchanged — so running `mute` twice leaves the session exactly as one run
    does; `unmute` issues `voice.mute(false)` unconditionally, muted or not. -/
theorem claim_C10 (a : Nat) (v : CallState) (hv : v.channel = some a) (ok : Bool) :
    (v.selfMute = true →
      mute (some a) (some v) ok
        = ⟨some v, [okReply "!mute" "I\x27m already muted. Use `!unmute` to unmute me"], []⟩)
    ∧ (mute (some a) ((mute (some a) (some v) ok).session) ok).session
        = (mute (some a) (some v) ok).session
    ∧ VoiceCall.muteCall false ∈ (unmute (some a) (some v) ok).calls := by
  obtain ⟨ch, sm, sd, q⟩ := v
  simp only [CallState.mk.injEq] at hv ⊢
  cases hv
  cases sm <;> cases ok <;> simp [mute, unmute]

/-- Claim C10 witness: the theorem applied to an already-muted concrete
    session. -/
theorem claim_C10_witness :
    (CallState.mk (some 1) true false []).channel = some 1
    ∧ ((CallState.mk (some 1) true false []).selfMute = true →
        mute (some 1) (some (CallState.mk (some 1) true false [])) true
          = ⟨some (CallState.mk (some 1) true false []),
              [okReply "!mute" "I\x27m already muted. Use `!unmute` to unmute me"], []⟩)
    ∧ (mute (some 1) ((mute (some 1) (some (CallState.mk (some 1) true false [])) true).session) true).session
        = (mute (some 1) (some (CallState.mk (some 1) true false [])) true).session
    ∧ VoiceCall.muteCall false
        ∈ (unmute (some 1) (some (CallState.mk (some 1) true false [])) true).calls :=
  ⟨rfl, (claim_C10 1 _ rfl true).1, (claim_C10 1 _ rfl true).2.1, (claim_C10 1 _ rfl true).2.2⟩

/-- Claim C1: for every session-requiring command (!leave, !mute, !unmute,
    !play, !skip, !stop, !queue, !now), with an active session whose channel
    is `c` and an author whose voice channel is not `c`, the handler sends an
    error reply and performs no operation on the call state: the session
    still exists with its channel, mute flag and queue unchanged, and no
    voice-library call is issued. -/
theorem claim_C1 (author : Option Nat) (v : CallState) (c : Nat)
    (hc : v.channel = some c) (hne : author ≠ some c)
    (removeOk muteOk skipOk joinOk : Bool) (arg music : Option String)
    (pq : Except String (List Metadata)) (am : Except String (Option String)) :
    leave author (some v) removeOk
      = some ⟨some v, [errReply "!leave" "User not in the same voice channel"], []⟩
    ∧ mute author (some v) muteOk
      = ⟨some v, [errReply "!mute" "User not in the same voice channel"], []⟩
    ∧ unmute author (some v) muteOk
      = ⟨some v, [errReply "!unmute" "User not in the same voice channel"], []⟩
    ∧ (∃ d, play author (some v) joinOk music pq am
        = PlayResult.ok ⟨some v, [errReply "!play" d], []⟩)
    ∧ skip author (some v) skipOk arg
      = some ⟨some v, [errReply "!skip" "User not in the same voice channel"], []⟩
    ∧ stop author (some v)
      = ⟨some v, [errReply "!stop" "User not in the same voice channel"], []⟩
    ∧ queueCmd author (some v)
      = ⟨some v, [errReply "!queue" "User not in the same voice channel"], []⟩
    ∧ now author (some v)
      = ⟨some v, [errReply "!now" "User not in the same voice channel"], []⟩ := by
  have hne' : author ≠ v.channel := by rw [hc]; exact hne
  refine ⟨?_, ?_, ?_, ?_, ?_, ?_, ?_, ?_⟩
  · simp [leave, hne']
  · simp [mute, hne']
  · simp [unmute, hne']
  · cases author with
    | none => exact ⟨"User not in a voice channel", by simp [play]⟩
    | some u =>
      cases music with
      | none => exact ⟨"Missing music or URL argument", by simp [play]⟩
      | some m =>
        refine ⟨"User not in the same voice channel", ?_⟩
        have hu : some u ≠ v.channel := hne'
        simp [play, hu]
  · simp [skip, hne']
  · simp [stop, hne']
  · simp [queueCmd, hne']
  · simp [now, hne']

/-- Claim C1 witness: the theorem applied with the bot in channel 1 and the
    author in channel 2. -/
theorem claim_C1_witness :
    (CallState.mk (some 1) false false [Track.mk "t"]).channel = some 1
    ∧ (some 2 : Option Nat) ≠ some 1
    ∧ leave (some 2) (some (CallState.mk (some 1) false false [Track.mk "t"])) true
        = some ⟨some (CallState.mk (some 1) false false [Track.mk "t"]),
            [errReply "!leave" "User not in the same voice channel"], []⟩ :=
  ⟨rfl, by decide,
    (claim_C1 (some 2) _ 1 rfl (by decide) true true true true none none
      (Except.ok []) (Except.ok none)).1⟩

/-- Claim C3: at most one active voice session per guild.  `!join` while a
    session exists sends an error reply and leaves the session untouched
    (with the author in some voice channel, the reply is exactly the
    already-in-another-voice-channel error); `!play` never issues a
    `manager.join` while a session exists and preserves that session's
    channel, and it creates the session on the author's channel only when no
    session exists. -/
theorem claim_C3 (v : CallState) (a : Nat) (author : Option Nat)
    (joinOk deafenOk : Bool) (music : Option String) (m : String)
    (pq : Except String (List Metadata)) (am : Except String (Option String)) :
    (∃ d, join author (some v) joinOk deafenOk = ⟨some v, [errReply "!join" d], []⟩)
    ∧ join (some a) (some v) joinOk deafenOk
        = ⟨some v, [errReply "!join" "I\x27m already in another voice channel"], []⟩
    ∧ (∀ ch, VoiceCall.joinCh ch ∉ (play author (some v) joinOk music pq am).out.calls)
    ∧ (∃ w, (play author (some v) joinOk music pq am).out.session = some w
        ∧ w.channel = v.channel)
    ∧ (∃ w, (play (some a) none true (some m) pq am).out.session = some w
        ∧ w.channel = some a) := by
  refine ⟨?_, ?_, ?_, ?_, ?_⟩
  · cases author with
    | none => exact ⟨"User not in a voice channel", by simp [join]⟩
    | some u => exact ⟨"I\x27m already in another voice channel", by simp [join]⟩
  · simp [join]
  · intro ch
    cases author with
    | none => simp [play, PlayResult.out]
    | some u =>
      cases music with
      | none => simp [play, PlayResult.out]
      | some s =>
        by_cases hu : some u ≠ v.channel
        · simp [play, PlayResult.out, hu]
        · by_cases hp : isPlaylistUrl s
          · cases pq with
            | error e => simp [play, PlayResult.out, hu, hp]
            | ok ms => simp [play, PlayResult.out, hu, hp]
          · cases am with
            | error e => simp [play, PlayResult.out, hu, hp]
            | ok t => simp [play, PlayResult.out, hu, hp]
  · cases author with
    | none => exact ⟨v, by simp [play, PlayResult.out], rfl⟩
    | some u =>
      cases music with
      | none => exact ⟨v, by simp [play, PlayResult.out], rfl⟩
      | some s =>
        by_cases hu : some u ≠ v.channel
        · exact ⟨v, by simp [play, PlayResult.out, hu], rfl⟩
        · by_cases hp : isPlaylistUrl s
          · cases pq with
            | error e => exact ⟨v, by simp [play, PlayResult.out, hu, hp], rfl⟩
            | ok ms =>
              exact ⟨{ v with queue := v.queue ++ ms.map fun md => Track.mk md.title },
                by simp [play, PlayResult.out, hu, hp], rfl⟩
          · cases am with
            | error e => exact ⟨v, by simp [play, PlayResult.out, hu, hp], rfl⟩
            | ok t =>
              exact ⟨{ v with queue := v.queue ++ [Track.mk (t.getD "Unknown")] },
                by simp [play, PlayResult.out, hu, hp], rfl⟩
  · by_cases hp : isPlaylistUrl m
    · cases pq with
      | error e =>
        exact ⟨CallState.mk (some a) false false [],
          by simp [play, PlayResult.out, hp], rfl⟩
      | ok ms =>
        exact ⟨CallState.mk (some a) false false (ms.map fun md => Track.mk md.title),
          by simp [play, PlayResult.out, hp], rfl⟩
    · cases am with
      | error e =>
        exact ⟨CallState.mk (some a) false false [],
          by simp [play, PlayResult.out, hp], rfl⟩
      | ok t =>
        exact ⟨CallState.mk (some a) false false [Track.mk (t.getD "Unknown")],
          by simp [play, PlayResult.out, hp], rfl⟩

/-- Claim C3 witness: the theorem applied to a concrete session in channel 1
    with author in channel 1. -/
theorem claim_C3_witness :
    join (some 1) (some (CallState.mk (some 1) false false [])) true true
      = ⟨some (CallState.mk (some 1) false false []),
          [errReply "!join" "I\x27m already in another voice channel"], []⟩ :=
  (claim_C3 (CallState.mk (some 1) false false []) 1 (some 1) true true
    (some "song") "song" (Except.ok []) (Except.ok none)).2.1

/-- Claim C6: queue order is insertion order.  A playlist `!play` appends
    every resolved track at the back of the queue in playlist order, a
    single-track `!play` appends the one track at the back, and every
    outcome of `!skip` leaves a suffix of the old queue, so the relative
    order of the remaining tracks never changes. -/
theorem claim_C6 (a : Nat) (v : CallState) (hv : v.channel = some a)
    (joinOk skipOk : Bool) (m m2 : String) (hm : isPlaylistUrl m = true)
    (hm2 : isPlaylistUrl m2 = false) (ms : List Metadata) (title : Option String)
    (pq : Except String (List Metadata)) (am : Except String (Option String))
    (arg : Option String) :
    (play (some a) (some v) joinOk (some m) (Except.ok ms) am).out.session
        = some { v with queue := v.queue ++ ms.map fun md => Track.mk md.title }
    ∧ (play (some a) (some v) joinOk (some m2) pq (Except.ok title)).out.session
        = some { v with queue := v.queue ++ [Track.mk (title.getD "Unknown")] }
    ∧ (∀ out, skip (some a) (some v) skipOk arg = some out →
        ∃ w, out.session = some w ∧ List.IsSuffix w.queue v.queue) := by
  have hv' : ¬(some a ≠ v.channel) := by rw [hv]; simp
  refine ⟨?_, ?_, ?_⟩
  · simp [play, PlayResult.out, hv', hm]
  · simp [play, PlayResult.out, hv', hm2]
  · intro out h
    have hv'' : ¬(some a ≠ v.channel) := hv'
    simp only [skip, hv'', if_false, ite_not] at h
    by_cases he : v.queue.isEmpty
    · rw [if_pos he] at h
      cases h
      exact ⟨v, rfl, List.suffix_refl _⟩
    · rw [if_neg he] at h
      cases hn : parseUsize (arg.getD "1") with
      | none =>
        simp only [hn] at h
        cases h
        exact ⟨v, rfl, List.suffix_refl _⟩
      | some amount =>
        simp only [hn] at h
        by_cases h20 : amount > 20
        · rw [if_pos h20] at h
          cases h
          exact ⟨v, rfl, List.suffix_refl _⟩
        · rw [if_neg h20] at h
          cases skipOk with
          | false =>
            simp only [Bool.not_false, if_true] at h
            cases h
            exact ⟨v, rfl, List.suffix_refl _⟩
          | true =>
            simp only [Bool.not_true, if_false] at h
            by_cases h1 : amount == 1
            · rw [if_pos h1] at h
              cases h
              exact ⟨_, rfl, List.drop_suffix 1 v.queue⟩
            · rw [if_neg h1] at h
              cases hs : usizeSub amount 1 with
              | none =>
                simp only [hs] at h
                simp at h
              | some k =>
                simp only [hs] at h
                cases hd : vecDrain (v.queue.drop 1) k with
                | none =>
                  simp only [hd] at h
                  simp at h
                | some pr =>
                  obtain ⟨p1, p2⟩ := pr
                  simp only [hd] at h
                  cases h
                  refine ⟨_, rfl, ?_⟩
                  have h2 : p2 = (v.queue.drop 1).drop k := by
                    unfold vecDrain at hd
                    by_cases hk : k ≤ (v.queue.drop 1).length
                    · rw [if_pos hk] at hd
                      cases hd
                      rfl
                    · rw [if_neg hk] at hd
                      cases hd
                  simp only [h2]
                  exact (List.drop_suffix k (v.queue.drop 1)).trans
                    (List.drop_suffix 1 v.queue)

/-- Claim C6 witness: the theorem applied to a concrete one-track queue,
    playlist metadata of two tracks, and a skip of the current track. -/
theorem claim_C6_witness :
    (play (some 1) (some (CallState.mk (some 1) false false [Track.mk "t"])) true
      (some "http://x?v=1&list=2") (Except.ok [Metadata.mk "u1" "a", Metadata.mk "u2" "b"])
      (Except.ok none)).out.session
        = some (CallState.mk (some 1) false false [Track.mk "t", Track.mk "a", Track.mk "b"]) :=
  (claim_C6 1 (CallState.mk (some 1) false false [Track.mk "t"]) rfl true true
    "http://x?v=1&list=2" "despacito" (by decide) (by decide)
    [Metadata.mk "u1" "a", Metadata.mk "u2" "b"] none (Except.ok [])
    (Except.ok none) none).1

/-- Claim C8 as amended: the batch-removal computation of `!skip` is safe
    exactly on the range the code does not guard: when the parsed amount `n`
    satisfies `1 ≤ n` (so `n - 1` cannot underflow `usize`) and
    `n ≤ queue length` (so the drain range `0..n-1` stays within the queue
    remaining after the current track is removed), the handler never panics.
    The unguarded `n = 0` underflows, and `n` above the queue length overruns
    the drain (see the counterexample). -/
theorem claim_C8_amended (a : Nat) (v : CallState) (hv : v.channel = some a)
    (skipOk : Bool) (arg : Option String) (n : Nat)
    (hparse : parseUsize (arg.getD "1") = some n) (h1 : 1 ≤ n)
    (h2 : n ≤ v.queue.length) :
    (skip (some a) (some v) skipOk arg).isSome = true := by
  have hv' : ¬(some a ≠ v.channel) := by rw [hv]; simp
  have hne : v.queue.isEmpty = false := by
    cases hq : v.queue with
    | nil => rw [hq] at h2; simp at h2; omega
    | cons t ts => simp
  simp only [skip, hv', ite_not, if_true, hne, Bool.false_eq_true, if_false, hparse]
  by_cases h20 : n > 20
  · simp [h20]
  · simp only [h20, if_false]
    cases skipOk with
    | false => simp
    | true =>
      simp only [Bool.not_true, Bool.false_eq_true, if_false]
      by_cases hn1 : n == 1
      · simp [hn1]
      · simp only [hn1, Bool.false_eq_true, if_false]
        have hs : usizeSub n 1 = some (n - 1) := by
          unfold usizeSub
          rw [if_pos h1]
        have hk : n - 1 ≤ v.queue.tail.length := by
          rw [List.length_tail]
          omega
        have hd : vecDrain v.queue.tail (n - 1)
            = some (v.queue.tail.take (n - 1), v.queue.tail.drop (n - 1)) := by
          unfold vecDrain
          rw [if_pos hk]
        simp [hs, hd]

/-- Claim C8 amended witness: `!skip 2` on a two-track queue is safe. -/
theorem claim_C8_amended_witness :
    (CallState.mk (some 1) false false [Track.mk "a", Track.mk "b"]).channel = some 1
    ∧ parseUsize ((some "2").getD "1") = some 2
    ∧ 1 ≤ 2
    ∧ 2 ≤ (CallState.mk (some 1) false false [Track.mk "a", Track.mk "b"]).queue.length
    ∧ (skip (some 1) (some (CallState.mk (some 1) false false [Track.mk "a", Track.mk "b"]))
        true (some "2")).isSome = true :=
  ⟨rfl, by decide, by decide, by decide,
    claim_C8_amended 1 _ rfl true (some "2") 2 (by decide) (by decide) (by decide)⟩

/-- Claim C5 as amended: the router dispatches exactly the prefix-matched
    text commands !help, !join, !leave, !mute, !unmute, !play, !skip, !stop,
    !queue and !now — and NOT !head, which the spec lists but main.rs never
    registers.  Prefix-less text is not dispatched, and every dispatched
    name is a registered command. -/
theorem claim_C5_amended :
    route "!help" = some "help" ∧ route "!join" = some "join"
    ∧ route "!leave" = some "leave" ∧ route "!mute" = some "mute"
    ∧ route "!unmute" = some "unmute" ∧ route "!play despacito" = some "play"
    ∧ route "!skip 2" = some "skip" ∧ route "!stop" = some "stop"
    ∧ route "!queue" = some "queue" ∧ route "!now" = some "now"
    ∧ route "!head" = none ∧ route "help" = none
    ∧ ∀ s n, route s = some n → n ∈ commandNames := by
  refine ⟨by decide, by decide, by decide, by decide, by decide, by decide,
    by decide, by decide, by decide, by decide, by decide, by decide, ?_⟩
  intro s n h
  unfold route at h
  split at h
  · exact absurd h (by simp)
  · split at h
    · simp only [] at h
      split at h
      · rename_i hm
        cases h
        exact List.mem_of_elem_eq_true hm
      · exact absurd h (by simp)
    · exact absurd h (by simp)

/-- Claim C5 amended witness: the universally quantified exactness conjunct
    applied at the concrete message `!play despacito`. -/
theorem claim_C5_amended_witness :
    "play" ∈ commandNames :=
  claim_C5_amended.2.2.2.2.2.2.2.2.2.2.2.2 "!play despacito" "play"
    claim_C5_amended.2.2.2.2.2.1

/-- Claim C4 as amended: every command handler whose validation passes sends
    a reply for each outcome of its library call — EXCEPT `stop`, whose
    success path performs `queue().stop()` and sends nothing, and `play`'s
    single-track path, which sends no confirmation on success and propagates
    a metadata-resolution failure out of the handler (`?`) without any chat
    reply. -/
theorem claim_C4_amended (a : Nat) (v : CallState) (hv : v.channel = some a)
    (removeOk muteOk skipOk joinOk deafenOk : Bool) (arg : Option String)
    (m : String) (e : String) (title : Option String)
    (pq : Except String (List Metadata)) (am : Except String (Option String)) :
    (∀ out, leave (some a) (some v) removeOk = some out → out.replies ≠ [])
    ∧ (mute (some a) (some v) muteOk).replies ≠ []
    ∧ (unmute (some a) (some v) muteOk).replies ≠ []
    ∧ (∀ out, skip (some a) (some v) skipOk arg = some out → out.replies ≠ [])
    ∧ (queueCmd (some a) (some v)).replies ≠ []
    ∧ (now (some a) (some v)).replies ≠ []
    ∧ (join (some a) none joinOk deafenOk).replies ≠ []
    ∧ (isPlaylistUrl m = true →
        (play (some a) (some v) joinOk (some m) pq am).out.replies ≠ [])
    ∧ (stop (some a) (some v)).replies = []
    ∧ (isPlaylistUrl m = false →
        play (some a) (some v) joinOk (some m) pq (Except.error e)
          = PlayResult.propagated ⟨some v, [], []⟩)
    ∧ (isPlaylistUrl m = false →
        (play (some a) (some v) joinOk (some m) pq (Except.ok title)).out.replies = []) := by
  have hv' : ¬(some a ≠ v.channel) := by rw [hv]; simp
  refine ⟨?_, ?_, ?_, ?_, ?_, ?_, ?_, ?_, ?_, ?_, ?_⟩
  · intro out h
    simp only [leave, hv', ite_not, if_true] at h
    cases removeOk with
    | true =>
      simp only [if_true] at h
      cases h
      simp [okReply]
    | false =>
      simp only [Bool.false_eq_true, if_false] at h
      cases h
      simp [errReply]
  · cases hm : v.selfMute with
    | true => simp [mute, hv', hm, okReply]
    | false => cases muteOk <;> simp [mute, hv', hm, okReply, errReply]
  · cases muteOk <;> simp [unmute, hv', okReply, errReply]
  · intro out h
    simp only [skip, hv', ite_not, if_true] at h
    by_cases he : v.queue.isEmpty
    · rw [if_pos he] at h
      cases h
      simp [errReply]
    · rw [if_neg he] at h
      cases hn : parseUsize (arg.getD "1") with
      | none =>
        simp only [hn] at h
        cases h
        simp [errReply]
      | some amount =>
        simp only [hn] at h
        by_cases h20 : amount > 20
        · rw [if_pos h20] at h
          cases h
          simp [errReply]
        · rw [if_neg h20] at h
          cases skipOk with
          | false =>
            simp only [Bool.not_false, if_true] at h
            cases h
            simp [errReply]
          | true =>
            simp only [Bool.not_true, Bool.false_eq_true, if_false] at h
            by_cases h1 : amount == 1
            · rw [if_pos h1] at h
              cases h
              simp [okReply]
            · rw [if_neg h1] at h
              cases hs : usizeSub amount 1 with
              | none =>
                simp only [hs] at h
                simp at h
              | some k =>
                simp only [hs] at h
                cases hd : vecDrain (v.queue.drop 1) k with
                | none =>
                  simp only [hd] at h
                  simp at h
                | some pr =>
                  obtain ⟨p1, p2⟩ := pr
                  simp only [hd] at h
                  cases h
                  simp [okReply]
  · cases hq : v.queue.getLast? with
    | none => simp [queueCmd, hv', hq, okReply]
    | some t => simp [queueCmd, hv', hq, okReply]
  · cases hq : v.queue.head? with
    | none => simp [now, hv', hq, okReply]
    | some t => simp [now, hv', hq, okReply]
  · cases joinOk <;> simp [join, okReply, errReply]
  · intro hm
    by_cases hu : some a ≠ v.channel
    · simp [play, PlayResult.out, hu, errReply]
    · cases pq with
      | error err => simp [play, PlayResult.out, hu, hm, errReply]
      | ok ms =>
        cases am with
        | error err => simp [play, PlayResult.out, hu, hm, okReply]
        | ok t => simp [play, PlayResult.out, hu, hm, okReply]
  · simp [stop, hv']
  · intro hm
    simp [play, hv', hm]
  · intro hm
    simp [play, PlayResult.out, hv', hm]

/-- Claim C4 amended witness: the `stop`-sends-nothing conjunct applied to a
    concrete validated session. -/
theorem claim_C4_amended_witness :
    (CallState.mk (some 1) false false [Track.mk "t"]).channel = some 1
    ∧ (stop (some 1) (some (CallState.mk (some 1) false false [Track.mk "t"]))).replies = []
    ∧ (mute (some 1) (some (CallState.mk (some 1) false false [Track.mk "t"])) true).replies ≠ [] :=
  ⟨rfl,
    (claim_C4_amended 1 _ rfl true true true true true none "x" "err" none
      (Except.ok []) (Except.ok none)).2.2.2.2.2.2.2.2.1,
    (claim_C4_amended 1 _ rfl true true true true true none "x" "err" none
      (Except.ok []) (Except.ok none)).2.1⟩

/-- Helper: a successful `collectMetadata` yields one record per line. -/
theorem collectMetadata_ok_length {parse : String → Option Metadata}
    {ls : List String} {ms : List Metadata}
    (h : Playlist.collectMetadata parse ls = Except.ok ms) : ms.length = ls.length := by
  induction ls generalizing ms with
  | nil =>
    unfold Playlist.collectMetadata at h
    cases h
    rfl
  | cons s rest ih =>
    unfold Playlist.collectMetadata at h
    cases hp : parse s with
    | none => rw [hp] at h; cases h
    | some md =>
      rw [hp] at h
      cases hr : Playlist.collectMetadata parse rest with
      | error e =>
        rw [hr] at h
        cases h
      | ok ms' =>
        simp only [hr] at h
        cases h
        simp [ih hr]

/-- Helper: a successful `collectMetadata` parses the i-th line into the
    i-th record. -/
theorem collectMetadata_ok_get {parse : String → Option Metadata}
    {ls : List String} {ms : List Metadata}
    (h : Playlist.collectMetadata parse ls = Except.ok ms) :
    ∀ i (h1 : i < ms.length) (h2 : i < ls.length),
      parse (ls.get ⟨i, h2⟩) = some (ms.get ⟨i, h1⟩) := by
  induction ls generalizing ms with
  | nil =>
    intro i h1 h2
    simp at h2
  | cons s rest ih =>
    unfold Playlist.collectMetadata at h
    cases hp : parse s with
    | none => rw [hp] at h; cases h
    | some md =>
      rw [hp] at h
      cases hr : Playlist.collectMetadata parse rest with
      | error e =>
        rw [hr] at h
        cases h
      | ok ms' =>
        simp only [hr] at h
        cases h
        intro i h1 h2
        cases i with
        | zero => simpa using hp
        | succ j =>
          exact ih hr j (Nat.lt_of_succ_lt_succ h1) (Nat.lt_of_succ_lt_succ h2)

/-- Helper: a line that fails to parse forces `collectMetadata` into the
    error case. -/
theorem collectMetadata_mem_none {parse : String → Option Metadata}
    {ls : List String} {s : String} (hmem : s ∈ ls) (hp : parse s = none) :
    ∃ e, Playlist.collectMetadata parse ls = Except.error e := by
  induction ls with
  | nil => cases hmem
  | cons a rest ih =>
    cases hpa : parse a with
    | none => exact ⟨"json parse error", by unfold Playlist.collectMetadata; rw [hpa]⟩
    | some md =>
      have hs : s ∈ rest := by
        cases hmem with
        | head => rw [hp] at hpa; cases hpa
        | tail _ hmem' => exact hmem'
      obtain ⟨e, he⟩ := ih hs
      refine ⟨e, ?_⟩
      unfold Playlist.collectMetadata
      rw [hpa, he]

/-- Helper: when every line parses, `collectMetadata` succeeds. -/
theorem collectMetadata_all_some {parse : String → Option Metadata}
    {ls : List String} (h : ∀ s, s ∈ ls → (parse s).isSome = true) :
    ∃ ms, Playlist.collectMetadata parse ls = Except.ok ms := by
  induction ls with
  | nil => exact ⟨[], rfl⟩
  | cons a rest ih =>
    obtain ⟨ms', hr⟩ := ih fun s hs => h s (List.mem_cons_of_mem a hs)
    have ha := h a (List.mem_cons_self a rest)
    cases hpa : parse a with
    | none => rw [hpa] at ha; cases ha
    | some md =>
      refine ⟨md :: ms', ?_⟩
      unfold Playlist.collectMetadata
      rw [hpa, hr]

/-- Claim C7 as amended: `playlist::query` returns `Err` when the subprocess
    exits with a failure status; it decodes stdout only up to the first
    non-UTF-8 line (`map_while(ok)` silently drops that line and every later
    one, see the counterexample); among the decoded lines, any JSON-parse
    failure yields `Err`, and when every decoded line parses it returns `Ok`
    with exactly one `Metadata` entry per decoded line, in line order. -/
theorem claim_C7_amended (stdout : List Playlist.StdoutLine)
    (parse : String → Option Metadata) (ms : List Metadata) :
    (∃ e, Playlist.query false stdout parse = Except.error e)
    ∧ (∀ s, s ∈ Playlist.linesOk stdout → parse s = none →
        ∃ e, Playlist.query true stdout parse = Except.error e)
    ∧ (Playlist.query true stdout parse = Except.ok ms →
        ms.length = (Playlist.linesOk stdout).length
        ∧ ∀ i (h1 : i < ms.length) (h2 : i < (Playlist.linesOk stdout).length),
            parse ((Playlist.linesOk stdout).get ⟨i, h2⟩) = some (ms.get ⟨i, h1⟩))
    ∧ ((∀ s, s ∈ Playlist.linesOk stdout → (parse s).isSome = true) →
        ∃ ms2, Playlist.query true stdout parse = Except.ok ms2) := by
  refine ⟨⟨"Failed querying playlist", rfl⟩, ?_, ?_, ?_⟩
  · intro s hmem hp
    obtain ⟨e, he⟩ := collectMetadata_mem_none hmem hp
    exact ⟨e, by simpa [Playlist.query] using he⟩
  · intro h
    have h' : Playlist.collectMetadata parse (Playlist.linesOk stdout) = Except.ok ms := by
      simpa [Playlist.query] using h
    exact ⟨collectMetadata_ok_length h', collectMetadata_ok_get h'⟩
  · intro h
    obtain ⟨ms2, hm⟩ := collectMetadata_all_some h
    exact ⟨ms2, by simpa [Playlist.query] using hm⟩

/-- Claim C7 amended witness: the order/length conjunct applied to a
    concrete two-line stdout whose lines both parse. -/
theorem claim_C7_amended_witness :
    Playlist.query true
        [Playlist.StdoutLine.valid "good", Playlist.StdoutLine.valid "good"]
        parseSample = Except.ok [Metadata.mk "u" "t", Metadata.mk "u" "t"]
    ∧ ([Metadata.mk "u" "t", Metadata.mk "u" "t"].length
        = (Playlist.linesOk
            [Playlist.StdoutLine.valid "good", Playlist.StdoutLine.valid "good"]).length) :=
  ⟨rfl,
    ((claim_C7_amended
        [Playlist.StdoutLine.valid "good", Playlist.StdoutLine.valid "good"]
        parseSample [Metadata.mk "u" "t", Metadata.mk "u" "t"]).2.2.1
      rfl).1⟩

end Rina
